import Mathlib

/-!
Verification development for a desktop input recorder/player written in Rust
(single source file src/main.rs). The shallow embedding below models time
instants and durations as natural numbers (nanoseconds); each function mirrors
one lock-held critical section of the source. Concurrency between the listener
thread and the playback scheduler thread is modelled by the reachability
relation Reach, which interleaves the critical sections at non-decreasing
time stamps.
-/

namespace Recorder

/-- The mode of the session, src/main.rs lines 10-16 (enum State). -/
inductive State where
  | Idle
  | Recording
  | Playing
  | Paused
deriving DecidableEq, Repr

/-- Keys of the rdev key enum that the program distinguishes: the four control
keys F1-F4 are matched by name in the listener; every other key is only
recorded/replayed. A few concrete letter keys plus a numeric code stand in for
the remaining variants. -/
inductive RKey where
  | F1
  | F2
  | F3
  | F4
  | KeyA
  | Other (code : Nat)
deriving DecidableEq, Repr

/-- Mouse buttons of the rdev button enum. -/
inductive RButton where
  | Left
  | Right
  | Middle
  | Other (code : Nat)
deriving DecidableEq, Repr

/-- The rdev EventType enum: the payload of one raw input event. -/
inductive EventType where
  | KeyPress (k : RKey)
  | KeyRelease (k : RKey)
  | ButtonPress (b : RButton)
  | ButtonRelease (b : RButton)
  | MouseMove (x y : Int)
  | Wheel (dx dy : Int)
deriving DecidableEq, Repr

/-- One captured event, src/main.rs lines 18-22 (struct RecordedEvent).
The timestamp is the duration (in nanoseconds) since the recording began. -/
structure RecordedEvent where
  event_type : EventType
  timestamp : Nat
deriving DecidableEq, Repr

/-- The shared, lock-guarded state, src/main.rs lines 24-34 (struct
SharedState). Instants and durations are Nat nanoseconds; the JoinHandle slot
is modelled by an Option Unit that records only whether a handle is stored. -/
structure SharedState where
  state : State
  recorded_events : List RecordedEvent
  start_record_time : Option Nat
  playback_thread : Option Unit
  looping : Bool
  paused_time : Nat
  pause_instant : Option Nat
  playback_start : Option Nat
  recording_length : Nat
deriving DecidableEq, Repr

/-- The initial shared state, src/main.rs lines 36-50 (SharedState::new). -/
def SharedState.new : SharedState :=
  { state := .Idle
    recorded_events := []
    start_record_time := none
    playback_thread := none
    looping := false
    paused_time := 0
    pause_instant := none
    playback_start := none
    recording_length := 0 }

/-- Duration::as_millis on a nanosecond count. -/
def as_millis (d : Nat) : Nat := d / 1000000

/-- Rust Duration subtraction, which panics on underflow; none models the
panic. -/
def checkedSub (a b : Nat) : Option Nat := if b ≤ a then some (a - b) else none

/-- Rust Iterator::max over a list of durations, src/main.rs lines 177-182:
returns none on an empty iterator. -/
def iterMax (l : List Nat) : Option Nat :=
  l.foldl (fun acc x =>
    match acc with
    | none => some x
    | some m => some (Nat.max m x)) none

/-- src/main.rs lines 145-155 (should_record_event): every event is recorded
except presses/releases of the four control keys. -/
def should_record_event (e : EventType) : Bool :=
  match e with
  | .KeyPress k | .KeyRelease k =>
    match k with
    | .F1 | .F2 | .F3 | .F4 => false
    | _ => true
  | _ => true

/-- src/main.rs lines 194-202 (record_input_event): while a recording is in
progress, append the event stamped with the elapsed time since the recording
started. -/
def record_input_event (now : Nat) (e : EventType) (s : SharedState) : SharedState :=
  match s.start_record_time with
  | some start =>
      { s with recorded_events :=
          s.recorded_events ++ [{ event_type := e, timestamp := now - start }] }
  | none => s

/-- src/main.rs lines 157-163, the first half of start_recording: if a
playback is active, force the mode to Idle and drop the playback handle
(take() followed by drop, with no join). -/
def start_recording_discard (s : SharedState) : SharedState :=
  if s.state = .Playing ∨ s.state = .Paused then
    { s with state := .Idle, playback_thread := none }
  else s

/-- src/main.rs lines 157-169 (start_recording): discard any running playback,
then clear the events, stamp the recording start and enter Recording. -/
def start_recording (now : Nat) (s : SharedState) : SharedState :=
  let s1 := start_recording_discard s
  { s1 with recorded_events := [], start_record_time := some now, state := .Recording }

/-- src/main.rs lines 171-192 (stop_recording): when Recording, return to
Idle, clear the recording start stamp and compute the recording length as the
maximum recorded timestamp, or zero when no event was recorded. -/
def stop_recording (s : SharedState) : SharedState :=
  if s.state = .Recording then
    { s with state := .Idle
             start_record_time := none
             recording_length :=
               if s.recorded_events ≠ [] then
                 (iterMax (s.recorded_events.map RecordedEvent.timestamp)).getD 0
               else 0 }
  else s

/-- src/main.rs lines 204-225, the lock-held section of start_playback: if no
events were recorded, or a playback is already in progress, report and leave
the state unchanged (the Bool result says whether a scheduler thread is
spawned); otherwise enter Playing with a fresh pass clock. -/
def start_playback_section (now : Nat) (s : SharedState) : SharedState × Bool :=
  if s.recorded_events = [] then (s, false)
  else if s.state = .Playing then (s, false)
  else
    ({ s with state := .Playing
              paused_time := 0
              pause_instant := none
              playback_start := some now }, true)

/-- src/main.rs lines 331-334: after spawning the scheduler thread, store its
handle in the shared state. -/
def store_handle (s : SharedState) : SharedState :=
  { s with playback_thread := some () }

/-- src/main.rs lines 204-335 (start_playback): the lock-held section followed,
when a thread was spawned, by storing its handle. -/
def start_playback (now : Nat) (s : SharedState) : SharedState :=
  let (s1, spawned) := start_playback_section now s
  if spawned then store_handle s1 else s1

/-- src/main.rs lines 231-237: the pass-clock reset at the top of the
playback loop of the scheduler thread. -/
def pass_reset (now : Nat) (s : SharedState) : SharedState :=
  { s with playback_start := some now, paused_time := 0, pause_instant := none }

/-- The outcome of one iteration of the inner wait loop of the scheduler. -/
inductive WaitOutcome where
  | replayNow
  | sleepThenReplay (ms : Nat)
  | sleepThenRecheck (ms : Nat)
  | terminate
  | panics
deriving DecidableEq, Repr

/-- src/main.rs lines 240-271, one iteration of the inner wait loop, as a
function of the values read under the lock (state, paused_time,
playback_start), the instant taken just after, and the timestamp of the event
about to be replayed. In the Playing arm the source unwraps playback_start and
subtracts paused_time with the panicking Duration subtraction; a sleep is
followed by break (replay), not by another read of the shared state. In the
Paused arm the source sleeps 50 ms and re-reads. When Idle or Recording the
scheduler returns. -/
def wait_iteration (st : State) (paused_time : Nat) (playback_start : Option Nat)
    (now : Nat) (offset : Nat) : WaitOutcome :=
  match st with
  | .Playing =>
    match playback_start with
    | none => .panics
    | some ps =>
      match checkedSub (now - ps) paused_time with
      | none => .panics
      | some effective_elapsed =>
        if effective_elapsed < offset then
          let desired_ms := as_millis offset
          let now_ms := as_millis effective_elapsed
          if now_ms < desired_ms then .sleepThenReplay (desired_ms - now_ms)
          else .replayNow
        else .replayNow
  | .Paused => .sleepThenRecheck 50
  | .Idle | .Recording => .terminate

/-- src/main.rs lines 316-327, the end-of-pass section of the scheduler: the
Bool result is true when the loop continues with another pass (looping still
on and still Playing); otherwise, when still Playing, the mode returns to
Idle; when the mode changed it is left as is. -/
def end_of_pass (s : SharedState) : SharedState × Bool :=
  if s.looping = true ∧ s.state = .Playing then (s, true)
  else if s.state = .Playing then ({ s with state := .Idle }, false)
  else (s, false)

/-- src/main.rs lines 338-344, the first lock-held section of stop_playback:
when Playing or Paused, set the mode to Idle. -/
def stop_playback_set_idle (s : SharedState) : SharedState :=
  if s.state = .Playing ∨ s.state = .Paused then { s with state := .Idle } else s

/-- src/main.rs lines 346-349, the second lock-held section of stop_playback:
take the playback handle out of the shared state (it is then joined outside
the lock). -/
def stop_playback_take_handle (s : SharedState) : SharedState :=
  { s with playback_thread := none }

/-- src/main.rs lines 337-354 (stop_playback): set Idle, then take and join
the handle. -/
def stop_playback (s : SharedState) : SharedState :=
  stop_playback_take_handle (stop_playback_set_idle s)

/-- src/main.rs lines 356-373 (print_playback_debug): the simulated-time
computation of the debug printer; none models the panic of the Duration
subtraction. -/
def debug_simulated_time (s : SharedState) (now : Nat) : Option Nat :=
  match s.playback_start with
  | some ps =>
      if s.state = .Paused ∨ s.state = .Playing then
        match checkedSub (now - ps) s.paused_time with
        | some effective => some (as_millis effective)
        | none => none
      else some 0
  | none => some 0

/-- The three deferred-action flags of the listener closure, src/main.rs
lines 58-60. -/
structure Flags where
  start_playback_after_unlock : Bool
  stop_playback_after_unlock : Bool
  stop_recording_after_unlock : Bool
deriving DecidableEq, Repr

/-- No deferred action requested. -/
def Flags.none : Flags := ⟨false, false, false⟩

/-- src/main.rs lines 62-123, the lock-held section of the listener closure:
dispatch on the four control keys (setting deferred-action flags for the
transitions that must run outside the lock), then, when still Recording,
append the event unless it is a control key. -/
def listener_section (now : Nat) (e : EventType) (s : SharedState) : SharedState × Flags :=
  let step : SharedState × Flags :=
    match e with
    | .KeyPress k =>
      match k with
      | .F1 =>
        match s.state with
        | .Playing => ({ s with state := .Paused, pause_instant := some now }, Flags.none)
        | .Paused =>
            let s1 :=
              match s.pause_instant with
              | some pi =>
                  { s with paused_time := s.paused_time + (now - pi), pause_instant := Option.none }
              | none => s
            ({ s1 with state := .Playing }, Flags.none)
        | .Recording => (s, { Flags.none with stop_recording_after_unlock := true })
        | .Idle =>
            if s.recorded_events ≠ [] then
              (s, { Flags.none with start_playback_after_unlock := true })
            else (s, Flags.none)
      | .F4 => (start_recording now s, Flags.none)
      | .F2 =>
          let f := { Flags.none with
            stop_playback_after_unlock := decide (s.state = .Playing ∨ s.state = .Paused)
            stop_recording_after_unlock := decide (s.state = .Recording) }
          (s, f)
      | .F3 => ({ s with looping := !s.looping }, Flags.none)
      | _ => (s, Flags.none)
    | _ => (s, Flags.none)
  let (s2, f) := step
  if s2.state = .Recording ∧ should_record_event e then (record_input_event now e s2, f)
  else (s2, f)

/-- src/main.rs lines 125-135: the deferred actions run after the listener
releases the lock, in source order (stop_playback, stop_recording,
start_playback). -/
def apply_flags (now : Nat) (f : Flags) (s : SharedState) : SharedState :=
  let s1 := if f.stop_playback_after_unlock then stop_playback s else s
  let s2 := if f.stop_recording_after_unlock then stop_recording s1 else s1
  if f.start_playback_after_unlock then start_playback now s2 else s2

/-- One full key-press handled by the listener: the lock-held section followed
by its deferred actions. The deferred actions run moments after the listener
section; the model stamps both with the same instant. -/
def press (now : Nat) (e : EventType) (s : SharedState) : SharedState :=
  let (s1, f) := listener_section now e s
  apply_flags now f s1

/-- Reachability of a shared state at a time stamp: interleavings of the
critical sections of the two threads, at non-decreasing instants. The
deferred-action flags are over-approximated: each deferred section may fire at
any time, which includes every schedule the flags can produce. -/
inductive Reach : SharedState → Nat → Prop where
  | init : Reach SharedState.new 0
  | listener (e : EventType) (s : SharedState) (t now : Nat) :
      Reach s t → t ≤ now → Reach (listener_section now e s).1 now
  | startPb (s : SharedState) (t now : Nat) :
      Reach s t → t ≤ now → Reach (start_playback now s) now
  | stopPb (s : SharedState) (t now : Nat) :
      Reach s t → t ≤ now → Reach (stop_playback s) now
  | stopRec (s : SharedState) (t now : Nat) :
      Reach s t → t ≤ now → Reach (stop_recording s) now
  | passReset (s : SharedState) (t now : Nat) :
      Reach s t → t ≤ now → Reach (pass_reset now s) now
  | endPass (s : SharedState) (t now : Nat) :
      Reach s t → t ≤ now → Reach (end_of_pass s).1 now

/-- Concrete trace, step 1: F4 pressed at time 0 starts a recording. -/
def demo1 : SharedState := (listener_section 0 (.KeyPress .F4) SharedState.new).1

/-- Step 2: the letter key A pressed at time 1 is recorded. -/
def demo2 : SharedState := (listener_section 1 (.KeyPress .KeyA) demo1).1

/-- Step 3: F2 pressed at time 2 stops the recording (listener section, then
the deferred stop_recording). -/
def demo3 : SharedState := stop_recording (listener_section 2 (.KeyPress .F2) demo2).1

/-- Step 4: F1 pressed at time 3 starts a playback (listener section, then the
deferred start_playback). -/
def demo4 : SharedState := start_playback 3 (listener_section 3 (.KeyPress .F1) demo3).1

/-- Step 5: F1 pressed at time 4 pauses the playback. -/
def demo5 : SharedState := (listener_section 4 (.KeyPress .F1) demo4).1

/-- Step 6: F2 pressed at time 5 stops the playback while paused (listener
section, then the deferred stop_playback). -/
def demo6 : SharedState := stop_playback (listener_section 5 (.KeyPress .F2) demo5).1

/-- The four control keys of the control surface. -/
inductive ControlKey where
  | playPauseToggle
  | stopKey
  | toggleLoop
  | startRecord
deriving DecidableEq, Repr

/-- The key bound to each control action (F1 Play/Pause-Toggle, F2 Stop, F3
Toggle-Loop, F4 Start-Record). -/
def ControlKey.key : ControlKey → RKey
  | .playPauseToggle => .F1
  | .stopKey => .F2
  | .toggleLoop => .F3
  | .startRecord => .F4

/-- The target mode of the transition table in section 4.2 of the spec, as a
function of the pressed control key, the current mode and whether the event
sequence is empty. Stated from the table (a mode the table leaves unchanged is
its own target), to be compared with the embedded listener. -/
def table_target_mode : ControlKey → State → Bool → State
  | .startRecord, _, _ => .Recording
  | .stopKey, _, _ => .Idle
  | .toggleLoop, m, _ => m
  | .playPauseToggle, .Playing, _ => .Paused
  | .playPauseToggle, .Paused, _ => .Playing
  | .playPauseToggle, .Recording, _ => .Idle
  | .playPauseToggle, .Idle, empty => if empty then .Idle else .Playing

/-- The wait-loop behaviour asserted by the specification (section 4.3, step
2a) for the Playing, not-yet-due case: sleep the remaining millisecond
difference and then re-check the shared state before replaying. Stated from
the words of the spec, to be compared with the embedded wait_iteration. -/
def spec_wait_sleeps_then_rechecks (paused_time ps now offset : Nat) : Prop :=
  as_millis ((now - ps) - paused_time) < as_millis offset →
    wait_iteration .Playing paused_time (some ps) now offset
      = .sleepThenRecheck (as_millis offset - as_millis ((now - ps) - paused_time))

/-- The timing invariant of the shared state at time t: whenever the mode is
Playing or Paused, the pass clock reference is present, it lies in the past,
the accumulated paused duration fits inside the elapsed time since the
reference, and a pending pause instant lies between the reference and now with
the accumulated paused duration fitting before it. -/
def TimingInv (s : SharedState) (t : Nat) : Prop :=
  (s.state = .Playing ∨ s.state = .Paused) →
    ∃ ps, s.playback_start = some ps ∧ ps ≤ t ∧ s.paused_time + ps ≤ t ∧
      ∀ pi, s.pause_instant = some pi → ps ≤ pi ∧ pi ≤ t ∧ s.paused_time + ps ≤ pi

lemma timingInv_mono {s : SharedState} {t t' : Nat} (h : TimingInv s t) (ht : t ≤ t') :
    TimingInv s t' := by
  intro hm
  obtain ⟨ps, h1, h2, h3, h4⟩ := h hm
  refine ⟨ps, h1, h2.trans ht, h3.trans ht, fun pi hpi => ?_⟩
  obtain ⟨g1, g2, g3⟩ := h4 pi hpi
  exact ⟨g1, g2.trans ht, g3⟩

lemma timingInv_of_fields {s s' : SharedState} {t : Nat}
    (hst : s'.state = s.state) (hpb : s'.playback_start = s.playback_start)
    (hpt : s'.paused_time = s.paused_time) (hpi : s'.pause_instant = s.pause_instant)
    (h : TimingInv s t) : TimingInv s' t := by
  unfold TimingInv
  rw [hst, hpb, hpt, hpi]
  exact h

lemma timingInv_record_input {s : SharedState} {t now : Nat} {e : EventType}
    (h : TimingInv s t) : TimingInv (record_input_event now e s) t := by
  unfold record_input_event
  cases s.start_record_time
  · exact h
  · exact timingInv_of_fields rfl rfl rfl rfl h

lemma timingInv_start_recording {s : SharedState} {t now : Nat} :
    TimingInv (start_recording now s) t := by
  intro hm
  rcases hm with h1 | h1 <;> simp [start_recording] at h1

lemma timingInv_stop_recording {s : SharedState} {t : Nat} (h : TimingInv s t) :
    TimingInv (stop_recording s) t := by
  unfold stop_recording
  split
  · intro hm; rcases hm with h1 | h1 <;> simp at h1
  · exact h

lemma timingInv_stop_playback {s : SharedState} {t : Nat} (h : TimingInv s t) :
    TimingInv (stop_playback s) t := by
  unfold stop_playback stop_playback_take_handle stop_playback_set_idle
  split
  · intro hm; rcases hm with h1 | h1 <;> simp at h1
  · exact timingInv_of_fields rfl rfl rfl rfl h

lemma timingInv_pass_reset {s : SharedState} {now : Nat} :
    TimingInv (pass_reset now s) now := by
  intro hm
  exact ⟨now, rfl, Nat.le_refl now, by simp [pass_reset], fun pi hpi => by
    simp [pass_reset] at hpi⟩

lemma timingInv_start_playback {s : SharedState} {t now : Nat}
    (h : TimingInv s t) (hle : t ≤ now) : TimingInv (start_playback now s) now := by
  by_cases he : s.recorded_events = []
  · have hid : start_playback now s = s := by
      simp [start_playback, start_playback_section, he]
    rw [hid]; exact timingInv_mono h hle
  · by_cases hp : s.state = .Playing
    · have hid : start_playback now s = s := by
        simp [start_playback, start_playback_section, he, hp]
      rw [hid]; exact timingInv_mono h hle
    · have hid : start_playback now s = store_handle
          { s with state := .Playing, paused_time := 0, pause_instant := none,
                   playback_start := some now } := by
        simp [start_playback, start_playback_section, he, hp]
      rw [hid]
      intro hm
      exact ⟨now, rfl, Nat.le_refl now, by simp [store_handle],
        fun pi hpi => by simp [store_handle] at hpi⟩

lemma timingInv_end_of_pass {s : SharedState} {t now : Nat}
    (h : TimingInv s t) (hle : t ≤ now) : TimingInv (end_of_pass s).1 now := by
  unfold end_of_pass
  split
  · exact timingInv_mono h hle
  · split
    · intro hm; rcases hm with h1 | h1 <;> simp at h1
    · exact timingInv_mono h hle

lemma listener_eq_f1_playing (now : Nat) (s : SharedState) (hs : s.state = .Playing) :
    listener_section now (.KeyPress .F1) s
      = ({ s with state := .Paused, pause_instant := some now }, Flags.none) := by
  simp [listener_section, hs, should_record_event]

lemma listener_eq_f1_paused_some (now : Nat) (s : SharedState) (pi : Nat)
    (hs : s.state = .Paused) (hpin : s.pause_instant = some pi) :
    listener_section now (.KeyPress .F1) s
      = ({ s with
            state := .Playing,
            paused_time := s.paused_time + (now - pi),
            pause_instant := none }, Flags.none) := by
  simp [listener_section, hs, hpin, should_record_event]

lemma listener_eq_f1_paused_none (now : Nat) (s : SharedState)
    (hs : s.state = .Paused) (hpin : s.pause_instant = none) :
    listener_section now (.KeyPress .F1) s
      = ({ s with state := .Playing }, Flags.none) := by
  simp [listener_section, hs, hpin, should_record_event]

lemma listener_eq_f1_recording (now : Nat) (s : SharedState) (hs : s.state = .Recording) :
    listener_section now (.KeyPress .F1) s
      = (s, { start_playback_after_unlock := false, stop_playback_after_unlock := false,
              stop_recording_after_unlock := true }) := by
  simp [listener_section, hs, should_record_event, Flags.none]

lemma listener_eq_f1_idle_cons (now : Nat) (s : SharedState) (hs : s.state = .Idle)
    (he : s.recorded_events ≠ []) :
    listener_section now (.KeyPress .F1) s
      = (s, { start_playback_after_unlock := true, stop_playback_after_unlock := false,
              stop_recording_after_unlock := false }) := by
  simp [listener_section, hs, he, should_record_event, Flags.none]

lemma listener_eq_f1_idle_nil (now : Nat) (s : SharedState) (hs : s.state = .Idle)
    (he : s.recorded_events = []) :
    listener_section now (.KeyPress .F1) s = (s, Flags.none) := by
  simp [listener_section, hs, he, should_record_event, Flags.none]

lemma listener_eq_f2 (now : Nat) (s : SharedState) :
    listener_section now (.KeyPress .F2) s
      = (s, { start_playback_after_unlock := false,
              stop_playback_after_unlock := decide (s.state = .Playing ∨ s.state = .Paused),
              stop_recording_after_unlock := decide (s.state = .Recording) }) := by
  simp [listener_section, should_record_event, Flags.none]

lemma listener_eq_f3 (now : Nat) (s : SharedState) :
    listener_section now (.KeyPress .F3) s
      = ({ s with looping := !s.looping }, Flags.none) := by
  simp [listener_section, should_record_event]

lemma listener_eq_f4 (now : Nat) (s : SharedState) :
    listener_section now (.KeyPress .F4) s = (start_recording now s, Flags.none) := by
  simp [listener_section, should_record_event, start_recording]

lemma timingInv_listener {s : SharedState} {t now : Nat} {e : EventType}
    (h : TimingInv s t) (hle : t ≤ now) :
    TimingInv (listener_section now e s).1 now := by
  have hmono := timingInv_mono h hle
  have hgeneric : ∀ f : Flags, TimingInv
      (if s.state = .Recording ∧ should_record_event e then
        (record_input_event now e s, f) else (s, f)).1 now := by
    intro f
    split
    · exact timingInv_record_input hmono
    · exact hmono
  cases e with
  | KeyPress k =>
    cases k with
    | F1 =>
      cases hs : s.state with
      | Idle =>
        by_cases he : s.recorded_events = []
        · rw [listener_eq_f1_idle_nil now s hs he]; exact hmono
        · rw [listener_eq_f1_idle_cons now s hs he]; exact hmono
      | Recording =>
        rw [listener_eq_f1_recording now s hs]; exact hmono
      | Playing =>
        rw [listener_eq_f1_playing now s hs]
        intro hm
        obtain ⟨ps, h1, h2, h3, h4⟩ := h (Or.inl hs)
        refine ⟨ps, h1, h2.trans hle, h3.trans hle, fun pi hpi => ?_⟩
        have hpi2 : some now = some pi := hpi
        cases hpi2
        exact ⟨h2.trans hle, Nat.le_refl now, h3.trans hle⟩
      | Paused =>
        rcases hpin : s.pause_instant with _ | pi
        · rw [listener_eq_f1_paused_none now s hs hpin]
          intro hm
          obtain ⟨ps, h1, h2, h3, h4⟩ := h (Or.inr hs)
          refine ⟨ps, h1, h2.trans hle, h3.trans hle, fun pj hpj => ?_⟩
          have hpj2 : s.pause_instant = some pj := hpj
          rw [hpin] at hpj2
          cases hpj2
        · rw [listener_eq_f1_paused_some now s pi hs hpin]
          intro hm
          obtain ⟨ps, h1, h2, h3, h4⟩ := h (Or.inr hs)
          obtain ⟨g1, g2, g3⟩ := h4 pi hpin
          refine ⟨ps, h1, h2.trans hle, ?_, fun pj hpj => ?_⟩
          · show s.paused_time + (now - pi) + ps ≤ now
            have hnow : pi ≤ now := g2.trans hle
            omega
          · have hpj2 : (Option.none : Option Nat) = some pj := hpj
            cases hpj2
    | F2 => rw [listener_eq_f2]; exact hmono
    | F3 => rw [listener_eq_f3]; exact timingInv_of_fields rfl rfl rfl rfl hmono
    | F4 => rw [listener_eq_f4]; exact timingInv_start_recording
    | KeyA => exact hgeneric _
    | Other c => exact hgeneric _
  | KeyRelease k => exact hgeneric _
  | ButtonPress b => exact hgeneric _
  | ButtonRelease b => exact hgeneric _
  | MouseMove x y => exact hgeneric _
  | Wheel dx dy => exact hgeneric _

lemma reach_timingInv {s : SharedState} {t : Nat} (h : Reach s t) : TimingInv s t := by
  induction h with
  | init =>
      intro hm
      rcases hm with h1 | h1 <;> simp [SharedState.new] at h1
  | listener e s t now hr hle ih => exact timingInv_listener ih hle
  | startPb s t now hr hle ih => exact timingInv_start_playback ih hle
  | stopPb s t now hr hle ih => exact timingInv_mono (timingInv_stop_playback ih) hle
  | stopRec s t now hr hle ih => exact timingInv_mono (timingInv_stop_recording ih) hle
  | passReset s t now hr hle ih => exact timingInv_pass_reset
  | endPass s t now hr hle ih => exact timingInv_end_of_pass ih hle

lemma reach_demo1 : Reach demo1 0 :=
  Reach.listener _ _ 0 0 Reach.init (Nat.le_refl 0)

lemma reach_demo2 : Reach demo2 1 :=
  Reach.listener _ _ 0 1 reach_demo1 (by omega)

lemma reach_demo3 : Reach demo3 2 :=
  Reach.stopRec _ 2 2 (Reach.listener _ _ 1 2 reach_demo2 (by omega)) (Nat.le_refl 2)

lemma reach_demo4 : Reach demo4 3 :=
  Reach.startPb _ 3 3 (Reach.listener _ _ 2 3 reach_demo3 (by omega)) (Nat.le_refl 3)

lemma reach_demo5 : Reach demo5 4 :=
  Reach.listener _ _ 3 4 reach_demo4 (by omega)

lemma reach_demo6 : Reach demo6 5 :=
  Reach.stopPb _ 5 5 (Reach.listener _ _ 4 5 reach_demo5 (by omega)) (Nat.le_refl 5)

lemma wait_iteration_playing (paused_time ps now off : Nat)
    (h : paused_time ≤ now - ps) :
    wait_iteration .Playing paused_time (some ps) now off =
      if now - ps - paused_time < off then
        if as_millis (now - ps - paused_time) < as_millis off then
          .sleepThenReplay (as_millis off - as_millis (now - ps - paused_time))
        else .replayNow
      else .replayNow := by
  show (match checkedSub (now - ps) paused_time with
    | none => WaitOutcome.panics
    | some effective_elapsed =>
      if effective_elapsed < off then
        if as_millis effective_elapsed < as_millis off then
          WaitOutcome.sleepThenReplay (as_millis off - as_millis effective_elapsed)
        else WaitOutcome.replayNow
      else WaitOutcome.replayNow) = _
  rw [show checkedSub (now - ps) paused_time = some (now - ps - paused_time) from by
    unfold checkedSub; rw [if_pos h]]

lemma debug_simulated_time_eq (s : SharedState) (now ps : Nat)
    (h1 : s.playback_start = some ps) (hact : s.state = .Paused ∨ s.state = .Playing)
    (hsub : s.paused_time ≤ now - ps) :
    debug_simulated_time s now = some (as_millis (now - ps - s.paused_time)) := by
  unfold debug_simulated_time
  rw [h1]
  show (if s.state = .Paused ∨ s.state = .Playing then
      match checkedSub (now - ps) s.paused_time with
      | some effective => some (as_millis effective)
      | none => none
    else some 0) = _
  rw [if_pos hact]
  rw [show checkedSub (now - ps) s.paused_time = some (now - ps - s.paused_time) from by
    unfold checkedSub; rw [if_pos hsub]]

/-- C10: in every reachable state that the playback scheduler can observe with
mode Playing or Paused, the pass clock reference playback_start is present and
the elapsed time since it is at least paused_time, so the unwrap of
playback_start and the Duration subtraction in the wait loop never panic, and
neither does the subtraction of the debug printer. -/
theorem C10_scheduler_no_panic (s : SharedState) (t now : Nat) (hr : Reach s t)
    (hle : t ≤ now) (hm : s.state = .Playing ∨ s.state = .Paused) :
    ∃ ps, s.playback_start = some ps ∧ s.paused_time + ps ≤ now ∧
      (∀ off, wait_iteration s.state s.paused_time s.playback_start now off
        ≠ .panics) ∧
      debug_simulated_time s now ≠ none := by
  obtain ⟨ps, h1, h2, h3, h4⟩ := timingInv_mono (reach_timingInv hr) hle hm
  refine ⟨ps, h1, h3, ?_, ?_⟩
  · intro off
    rcases hm with hp | hp <;> rw [hp, h1]
    · rw [wait_iteration_playing s.paused_time ps now off (by omega)]
      split
      · split <;> simp
      · simp
    · exact fun hc => WaitOutcome.noConfusion hc
  · rw [debug_simulated_time_eq s now ps h1 (Or.symm hm) (by omega)]
    simp

/-- Witness for C10 at the concrete reachable state demo4, observed at time
10. -/
theorem C10_scheduler_no_panic_witness :
    (3 ≤ 10 ∧ (demo4.state = .Playing ∨ demo4.state = .Paused)) ∧
    ∃ ps, demo4.playback_start = some ps ∧ demo4.paused_time + ps ≤ 10 ∧
      (∀ off, wait_iteration demo4.state demo4.paused_time demo4.playback_start 10 off
        ≠ .panics) ∧
      debug_simulated_time demo4 10 ≠ none :=
  ⟨⟨by omega, Or.inl (by decide)⟩,
    C10_scheduler_no_panic demo4 3 10 reach_demo4 (by omega) (Or.inl (by decide))⟩

/-- C3 counterexample: demo6 is reachable (record one event, stop, play,
pause, then press Stop while paused) and has mode Idle with pause_instant
still present and playback_start still present, so neither of the two claimed
equivalences holds after returning to Idle via Stop. -/
theorem C3_counterexample :
    Reach demo6 5 ∧ demo6.state = .Idle ∧ demo6.pause_instant = some 4 ∧
      demo6.playback_start = some 3 ∧
      ¬(demo6.pause_instant.isSome ↔ demo6.state = .Paused) ∧
      ¬(demo6.playback_start.isSome ↔
          (demo6.state = .Playing ∨ demo6.state = .Paused)) :=
  ⟨reach_demo6, by decide, by decide, by decide, by decide, by decide⟩

/-- C3 amended: on every reachable state, mode Playing or Paused guarantees
that playback_start is present; the converse direction of the claim fails
because stop_playback and end-of-pass leave playback_start and pause_instant
uncleared. -/
theorem C3_playback_start_present (s : SharedState) (t : Nat) (hr : Reach s t)
    (hm : s.state = .Playing ∨ s.state = .Paused) :
    s.playback_start.isSome := by
  obtain ⟨ps, h1, -, -, -⟩ := reach_timingInv hr hm
  rw [h1]
  rfl

/-- Witness for the amended C3 at the concrete reachable state demo4. -/
theorem C3_playback_start_present_witness :
    (demo4.state = .Playing ∨ demo4.state = .Paused) ∧ demo4.playback_start.isSome :=
  ⟨Or.inl (by decide),
    C3_playback_start_present demo4 3 reach_demo4 (Or.inl (by decide))⟩

/-- C2 counterexample: at the concrete observation (Playing, paused_time 0,
playback_start 0) taken at instant 0 with event offset 5 ms, the effective
elapsed time is below the offset, yet the code does not sleep-then-re-check as
the claim states: it sleeps the 5 ms difference and then proceeds directly to
the replay (break), never re-reading the shared state. -/
theorem C2_counterexample :
    ¬ spec_wait_sleeps_then_rechecks 0 0 0 5000000 ∧
      wait_iteration .Playing 0 (some 0) 0 5000000 = .sleepThenReplay 5 := by
  constructor
  · intro hspec
    have hcontra := hspec (by decide)
    revert hcontra
    decide
  · decide

/-- C2 amended: when the scheduler observes mode Playing, it sleeps for the
remaining millisecond difference and then replays directly, without
re-checking the shared state; when the effective elapsed time already reaches
the offset at millisecond granularity it replays immediately. -/
theorem C2_wait_sleeps_then_replays (paused_time ps now off : Nat)
    (h : paused_time ≤ now - ps) :
    wait_iteration .Playing paused_time (some ps) now off =
      if as_millis (now - ps - paused_time) < as_millis off then
        .sleepThenReplay (as_millis off - as_millis (now - ps - paused_time))
      else .replayNow := by
  rw [wait_iteration_playing paused_time ps now off h]
  by_cases h1 : now - ps - paused_time < off
  · rw [if_pos h1]
  · rw [if_neg h1]
    have hms : ¬ as_millis (now - ps - paused_time) < as_millis off := by
      have hof : off ≤ now - ps - paused_time := Nat.le_of_not_lt h1
      exact Nat.not_lt.mpr (Nat.div_le_div_right hof)
    rw [if_neg hms]

/-- Witness for the amended C2 at a concrete observation. -/
theorem C2_wait_sleeps_then_replays_witness :
    (0 : Nat) ≤ 10 - 0 ∧
    wait_iteration .Playing 0 (some 0) 10 5000000 =
      if as_millis (10 - 0 - 0) < as_millis 5000000 then
        .sleepThenReplay (as_millis 5000000 - as_millis (10 - 0 - 0))
      else .replayNow :=
  ⟨by decide, C2_wait_sleeps_then_replays 0 0 10 5000000 (by decide)⟩

lemma press_eq (now : Nat) (e : EventType) (s : SharedState) :
    press now e s
      = apply_flags now (listener_section now e s).2 (listener_section now e s).1 := rfl

lemma apply_flags_none (now : Nat) (s : SharedState) :
    apply_flags now Flags.none s = s := rfl

/-- C1: for every state and every control key, the mode after the full press
(listener section followed by the deferred actions) equals the target mode of
the transition table of section 4.2, as a function of the previous mode and
the emptiness of the event sequence. -/
theorem C1_mode_conformance (s : SharedState) (now : Nat) (k : ControlKey) :
    (press now (.KeyPress k.key) s).state
      = table_target_mode k s.state s.recorded_events.isEmpty := by
  cases k with
  | playPauseToggle =>
    simp only [ControlKey.key]
    cases hs : s.state with
    | Idle =>
      by_cases he : s.recorded_events = []
      · rw [press_eq, listener_eq_f1_idle_nil now s hs he, apply_flags_none, hs, he]
        decide
      · rw [press_eq, listener_eq_f1_idle_cons now s hs he]
        simp [apply_flags, start_playback, start_playback_section, store_handle,
          he, hs, table_target_mode, List.isEmpty_iff]
    | Recording =>
      rw [press_eq, listener_eq_f1_recording now s hs]
      simp [apply_flags, stop_recording, hs, table_target_mode]
    | Playing =>
      rw [press_eq, listener_eq_f1_playing now s hs, apply_flags_none]
      simp [table_target_mode]
    | Paused =>
      rcases hpin : s.pause_instant with _ | pi
      · rw [press_eq, listener_eq_f1_paused_none now s hs hpin, apply_flags_none]
        simp [table_target_mode]
      · rw [press_eq, listener_eq_f1_paused_some now s pi hs hpin, apply_flags_none]
        simp [table_target_mode]
  | stopKey =>
    simp only [ControlKey.key]
    rw [press_eq, listener_eq_f2]
    cases hs : s.state with
    | Idle =>
      simp [apply_flags, hs, table_target_mode]
    | Recording =>
      simp [apply_flags, stop_recording, hs, table_target_mode]
    | Playing =>
      simp [apply_flags, stop_playback, stop_playback_set_idle,
        stop_playback_take_handle, hs, table_target_mode]
    | Paused =>
      simp [apply_flags, stop_playback, stop_playback_set_idle,
        stop_playback_take_handle, hs, table_target_mode]
  | toggleLoop =>
    simp only [ControlKey.key]
    rw [press_eq, listener_eq_f3, apply_flags_none]
    simp [table_target_mode]
  | startRecord =>
    simp only [ControlKey.key]
    rw [press_eq, listener_eq_f4, apply_flags_none]
    simp [start_recording, table_target_mode]

lemma iterMax_foldl_some (a : Nat) (xs : List Nat) :
    xs.foldl (fun acc x =>
      match acc with
      | none => some x
      | some m => some (Nat.max m x)) (some a) = some (xs.foldl Nat.max a) := by
  induction xs generalizing a with
  | nil => rfl
  | cons y ys ih => exact ih (Nat.max a y)

lemma foldl_max_eq_foldr (a : Nat) (xs : List Nat) :
    xs.foldl Nat.max a = Nat.max a (xs.foldr Nat.max 0) := by
  induction xs generalizing a with
  | nil => simp
  | cons y ys ih =>
      show ys.foldl Nat.max (Nat.max a y) = Nat.max a (Nat.max y (ys.foldr Nat.max 0))
      rw [ih (Nat.max a y)]
      exact Nat.max_assoc a y (ys.foldr Nat.max 0)

lemma iterMax_getD (l : List Nat) : (iterMax l).getD 0 = l.foldr Nat.max 0 := by
  cases l with
  | nil => rfl
  | cons x xs =>
      have h1 : iterMax (x :: xs) = some (xs.foldl Nat.max x) := iterMax_foldl_some x xs
      rw [h1]
      show xs.foldl Nat.max x = Nat.max x (xs.foldr Nat.max 0)
      exact foldl_max_eq_foldr x xs

/-- C4: stopping a recording while in mode Recording sets recording_length to
the maximum recorded offset (zero when no event was recorded), clears
start_record_time and leaves the event sequence unchanged. -/
theorem C4_stop_recording (s : SharedState) (h : s.state = .Recording) :
    (stop_recording s).recording_length
        = (s.recorded_events.map RecordedEvent.timestamp).foldr Nat.max 0
  ∧ (stop_recording s).start_record_time = none
  ∧ (stop_recording s).recorded_events = s.recorded_events := by
  have hs : stop_recording s = { s with
      state := .Idle,
      start_record_time := none,
      recording_length :=
        if s.recorded_events ≠ [] then
          (iterMax (s.recorded_events.map RecordedEvent.timestamp)).getD 0
        else 0 } := by
    unfold stop_recording
    rw [if_pos h]
  rw [hs]
  refine ⟨?_, rfl, rfl⟩
  show (if s.recorded_events ≠ [] then
      (iterMax (s.recorded_events.map RecordedEvent.timestamp)).getD 0
    else 0) = _
  by_cases he : s.recorded_events = []
  · rw [if_neg (fun hc => hc he), he]
    rfl
  · rw [if_pos he, iterMax_getD]

/-- Witness for C4 at the concrete recording state demo2 (one event with
offset 1). -/
theorem C4_stop_recording_witness :
    demo2.state = .Recording ∧
    ((stop_recording demo2).recording_length
        = (demo2.recorded_events.map RecordedEvent.timestamp).foldr Nat.max 0
      ∧ (stop_recording demo2).start_record_time = none
      ∧ (stop_recording demo2).recorded_events = demo2.recorded_events) :=
  ⟨by decide, C4_stop_recording demo2 (by decide)⟩

/-- C5: Play/Pause-Toggle from Playing moves to Paused recording the pause
instant; from Paused with a recorded pause instant it moves to Playing, adds
the pause span to paused_time and clears the pause instant; the record
equalities show that every other field is unchanged. -/
theorem C5_pause_resume (s : SharedState) (now pi : Nat) :
    (s.state = .Playing →
      press now (.KeyPress .F1) s
        = { s with state := .Paused, pause_instant := some now })
  ∧ (s.state = .Paused → s.pause_instant = some pi →
      press now (.KeyPress .F1) s
        = { s with
            state := .Playing,
            paused_time := s.paused_time + (now - pi),
            pause_instant := none }) := by
  constructor
  · intro hs
    rw [press_eq, listener_eq_f1_playing now s hs, apply_flags_none]
  · intro hs hpin
    rw [press_eq, listener_eq_f1_paused_some now s pi hs hpin, apply_flags_none]

/-- Witness for C5 at the concrete states demo4 (Playing) and demo5 (Paused
with pause instant 4). -/
theorem C5_pause_resume_witness :
    (demo4.state = .Playing ∧
      press 4 (.KeyPress .F1) demo4
        = { demo4 with state := .Paused, pause_instant := some 4 })
  ∧ (demo5.state = .Paused ∧ demo5.pause_instant = some 4 ∧
      press 6 (.KeyPress .F1) demo5
        = { demo5 with
            state := .Playing,
            paused_time := demo5.paused_time + (6 - 4),
            pause_instant := none }) :=
  ⟨⟨by decide, (C5_pause_resume demo4 4 0).1 (by decide)⟩,
   ⟨by decide, by decide, (C5_pause_resume demo5 6 4).2 (by decide) (by decide)⟩⟩

/-- C6: at the end of a pass, with looping on and mode still Playing the loop
continues and the next pass-clock reset zeroes paused_time, sets
playback_start to the new start instant and clears pause_instant; with
looping off and mode still Playing the mode returns to Idle and the scheduler
stops; when the mode is no longer Playing it is left unchanged. -/
theorem C6_end_of_pass (s : SharedState) (now2 : Nat) :
    (s.looping = true → s.state = .Playing →
      (end_of_pass s).2 = true ∧
      (pass_reset now2 (end_of_pass s).1).paused_time = 0 ∧
      (pass_reset now2 (end_of_pass s).1).playback_start = some now2 ∧
      (pass_reset now2 (end_of_pass s).1).pause_instant = none ∧
      (end_of_pass s).1.state = s.state)
  ∧ (s.looping = false → s.state = .Playing →
      (end_of_pass s).1.state = .Idle ∧ (end_of_pass s).2 = false)
  ∧ (s.state ≠ .Playing →
      (end_of_pass s).1 = s ∧ (end_of_pass s).2 = false) := by
  refine ⟨?_, ?_, ?_⟩
  · intro hl hp
    have he : end_of_pass s = (s, true) := by
      unfold end_of_pass
      rw [if_pos ⟨hl, hp⟩]
    rw [he]
    exact ⟨rfl, rfl, rfl, rfl, rfl⟩
  · intro hl hp
    have he : end_of_pass s = ({ s with state := .Idle }, false) := by
      unfold end_of_pass
      rw [if_neg (by simp [hl]), if_pos hp]
    rw [he]
    exact ⟨rfl, rfl⟩
  · intro hp
    have he : end_of_pass s = (s, false) := by
      unfold end_of_pass
      rw [if_neg (by simp [hp]), if_neg hp]
    rw [he]
    exact ⟨rfl, rfl⟩

/-- Witness for C6 at three concrete states: demo4 with looping switched on,
demo4 itself (looping off, Playing), and demo3 (Idle). -/
theorem C6_end_of_pass_witness :
    ({ demo4 with looping := true }.looping = true ∧
      { demo4 with looping := true }.state = .Playing ∧
      (end_of_pass { demo4 with looping := true }).2 = true ∧
      (pass_reset 7 (end_of_pass { demo4 with looping := true }).1).paused_time = 0 ∧
      (pass_reset 7 (end_of_pass { demo4 with looping := true }).1).playback_start
        = some 7 ∧
      (pass_reset 7 (end_of_pass { demo4 with looping := true }).1).pause_instant
        = none)
  ∧ (demo4.looping = false ∧ demo4.state = .Playing ∧
      (end_of_pass demo4).1.state = .Idle ∧ (end_of_pass demo4).2 = false)
  ∧ (demo3.state ≠ .Playing ∧ (end_of_pass demo3).1 = demo3 ∧
      (end_of_pass demo3).2 = false) := by
  have h1 := (C6_end_of_pass { demo4 with looping := true } 7).1 (by decide) (by decide)
  have h2 := (C6_end_of_pass demo4 7).2.1 (by decide) (by decide)
  have h3 := (C6_end_of_pass demo3 7).2.2 (by decide)
  exact ⟨⟨by decide, by decide, h1.1, h1.2.1, h1.2.2.1, h1.2.2.2.1⟩,
    ⟨by decide, by decide, h2.1, h2.2⟩, ⟨by decide, h3.1, h3.2⟩⟩

/-- C7: pressing Start-Record (F4) from any mode yields Recording with an
empty event sequence and start_record_time = now; when a playback was active
the discard phase first forces the mode to Idle and removes the playback
handle (which is dropped, never joined), and the handle stays absent in the
final state. -/
theorem C7_start_record (s : SharedState) (now : Nat) :
    (press now (.KeyPress .F4) s).state = .Recording
  ∧ (press now (.KeyPress .F4) s).recorded_events = []
  ∧ (press now (.KeyPress .F4) s).start_record_time = some now
  ∧ (s.state = .Playing ∨ s.state = .Paused →
      (start_recording_discard s).state = .Idle ∧
      (start_recording_discard s).playback_thread = none ∧
      (press now (.KeyPress .F4) s).playback_thread = none) := by
  have hp : press now (.KeyPress .F4) s = start_recording now s := by
    rw [press_eq, listener_eq_f4, apply_flags_none]
  rw [hp]
  refine ⟨rfl, rfl, rfl, ?_⟩
  intro hm
  have hd : start_recording_discard s = { s with state := .Idle, playback_thread := none } := by
    unfold start_recording_discard
    rw [if_pos hm]
  refine ⟨by rw [hd], by rw [hd], ?_⟩
  show (start_recording_discard s).playback_thread = none
  rw [hd]

/-- Witness for C7 at the concrete Playing state demo4. -/
theorem C7_start_record_witness :
    (demo4.state = .Playing ∨ demo4.state = .Paused) ∧
    (press 9 (.KeyPress .F4) demo4).state = .Recording ∧
    (press 9 (.KeyPress .F4) demo4).recorded_events = [] ∧
    (press 9 (.KeyPress .F4) demo4).start_record_time = some 9 ∧
    ((start_recording_discard demo4).state = .Idle ∧
      (start_recording_discard demo4).playback_thread = none ∧
      (press 9 (.KeyPress .F4) demo4).playback_thread = none) :=
  ⟨Or.inl (by decide), (C7_start_record demo4 9).1, (C7_start_record demo4 9).2.1,
    (C7_start_record demo4 9).2.2.1,
    (C7_start_record demo4 9).2.2.2 (Or.inl (by decide))⟩

/-- C8: pressing Play/Pause-Toggle in Idle with no recorded events, and
requesting playback start while already Playing, leave the shared state
exactly unchanged. -/
theorem C8_noop (s : SharedState) (now : Nat) :
    (s.state = .Idle → s.recorded_events = [] → press now (.KeyPress .F1) s = s)
  ∧ (s.state = .Playing → start_playback now s = s) := by
  constructor
  · intro hs he
    rw [press_eq, listener_eq_f1_idle_nil now s hs he, apply_flags_none]
  · intro hs
    show (if (start_playback_section now s).2 then
        store_handle (start_playback_section now s).1
      else (start_playback_section now s).1) = s
    by_cases he : s.recorded_events = []
    · have h1 : start_playback_section now s = (s, false) := by
        unfold start_playback_section
        rw [if_pos he]
      rw [h1]
      rfl
    · have h1 : start_playback_section now s = (s, false) := by
        unfold start_playback_section
        rw [if_neg he, if_pos hs]
      rw [h1]
      rfl

/-- Witness for C8 at the initial state (Idle, no events) and at the concrete
Playing state demo4. -/
theorem C8_noop_witness :
    (SharedState.new.state = .Idle ∧ SharedState.new.recorded_events = [] ∧
      press 0 (.KeyPress .F1) SharedState.new = SharedState.new)
  ∧ (demo4.state = .Playing ∧ start_playback 11 demo4 = demo4) :=
  ⟨⟨by decide, by decide, (C8_noop SharedState.new 0).1 (by decide) (by decide)⟩,
   ⟨by decide, (C8_noop demo4 11).2 (by decide)⟩⟩

/-- C9: Toggle-Loop (F3) flips only the looping flag: two presses restore the
original state exactly, and a single press leaves every other field (mode,
events, record start, playback handle, paused time, pause instant, playback
start, recording length) unchanged, from every state. -/
theorem C9_toggle_loop (s : SharedState) (now now2 : Nat) :
    press now2 (.KeyPress .F3) (press now (.KeyPress .F3) s) = s
  ∧ (press now (.KeyPress .F3) s).looping = !s.looping
  ∧ (press now (.KeyPress .F3) s).state = s.state
  ∧ (press now (.KeyPress .F3) s).recorded_events = s.recorded_events
  ∧ (press now (.KeyPress .F3) s).start_record_time = s.start_record_time
  ∧ (press now (.KeyPress .F3) s).playback_thread = s.playback_thread
  ∧ (press now (.KeyPress .F3) s).paused_time = s.paused_time
  ∧ (press now (.KeyPress .F3) s).pause_instant = s.pause_instant
  ∧ (press now (.KeyPress .F3) s).playback_start = s.playback_start
  ∧ (press now (.KeyPress .F3) s).recording_length = s.recording_length := by
  have hp : ∀ (m : Nat) (u : SharedState),
      press m (.KeyPress .F3) u = { u with looping := !u.looping } := by
    intro m u
    rw [press_eq, listener_eq_f3, apply_flags_none]
  have hpp : press now2 (.KeyPress .F3) (press now (.KeyPress .F3) s) = s := by
    rw [hp, hp]
    show ({ s with looping := !(!s.looping) } : SharedState) = s
    rw [Bool.not_not]
  refine ⟨hpp, ?_, ?_, ?_, ?_, ?_, ?_, ?_, ?_, ?_⟩ <;> rw [hp]

end Recorder

